import Mathlib

/-!
# A verification model of the bevy_koto script/host bridge

This file gives a shallow embedding of the core of the `bevy_koto` crate
(`src/runtime.rs`, `src/entity.rs`, `src/shape.rs`) and proves properties of
the embedded definitions.

Modelling conventions:
* Koto runtime values are abstracted to a small inductive `KValue`; the only
  structure the bridge observes is "null / empty map / some opaque value".
* An exported script function is abstracted to its observable behaviour when
  called: it either returns a value or raises an error (`FnBehavior`).
* Wall-clock / virtual time is modelled with exact rationals; the code's
  arithmetic on seconds (`+`, `max 0`, reset to zero) is preserved verbatim.
* Bevy `Commands` are deferred, so systems that despawn entities are modelled
  as emitting an action trace rather than mutating the entity list in place.
* A Rust `panic!` / `unwrap()` failure is modelled with `Option`: `none`
  means the system panicked.
-/

namespace BevyKoto

/-- Abstract model of a Koto runtime value (`KValue` in the Koto crate).
`emptyMap` stands for `KMap::default().into()`, the default user data. -/
inductive KValue where
  | null
  | emptyMap
  | value (tag : Nat)
deriving DecidableEq, Repr

/-- The observable behaviour of one exported script function when it is
called: it either returns a value or raises a runtime error. -/
inductive FnBehavior where
  | ok (v : KValue)
  | err (msg : Nat)
deriving DecidableEq, Repr

/-- The exported-function names the bridge itself looks up
(`setup`, `on_load`, `update`, and `on_window_size` via external callers). -/
inductive ExportName where
  | setup
  | on_load
  | update
  | on_window_size
deriving DecidableEq, Repr

/-- The runtime's exported-function table, restricted to the names the bridge
looks up.  `none` means the name is not exported. -/
structure Exports where
  setup : Option FnBehavior
  on_load : Option FnBehavior
  update : Option FnBehavior
  on_window_size : Option FnBehavior
deriving DecidableEq, Repr

/-- The empty exports table (the result of `exports_mut().clear()`). -/
def Exports.empty : Exports := ⟨none, none, none, none⟩

/-- Table lookup, mirroring `self.runtime.exports().get(function_name)`. -/
def Exports.get (e : Exports) : ExportName → Option FnBehavior
  | ExportName.setup => e.setup
  | ExportName.on_load => e.on_load
  | ExportName.update => e.update
  | ExportName.on_window_size => e.on_window_size

/-- Running a compiled chunk adds the script's exports on top of whatever the
table already holds (top-level `export` statements overwrite per name). -/
def Exports.merge (old new : Exports) : Exports where
  setup := match new.setup with | some b => some b | none => old.setup
  on_load := match new.on_load with | some b => some b | none => old.on_load
  update := match new.update with | some b => some b | none => old.update
  on_window_size :=
    match new.on_window_size with | some b => some b | none => old.on_window_size

/-- Model of the `KotoRuntime` resource (`src/runtime.rs`): the interpreter's
export table, the opaque user data, and the `is_ready` flag.  The `time`
`KObject` is modelled separately (`KotoTimeObject`). -/
structure KotoRuntime where
  exports : Exports
  user_data : KValue
  is_ready : Bool
deriving DecidableEq, Repr

/-- The outcome of `KotoRuntime::run_exported_function`: the runtime after the
call, whether the exported function was actually called (it is not called when
the name is not exported), and the Rust `Result<Option<KValue>, koto::Error>`. -/
structure CallOutcome where
  rt : KotoRuntime
  invoked : Bool
  result : Except Nat (Option KValue)
deriving Repr

/-- Model of `KotoRuntime::run_exported_function` (`src/runtime.rs:422`):
returns `Ok(None)` without calling anything when the function is not exported;
otherwise calls it, and on a call error sets `is_ready = false`. -/
def run_exported_function (self : KotoRuntime) (name : ExportName) : CallOutcome :=
  match self.exports.get name with
  | none => ⟨self, false, Except.ok none⟩
  | some (FnBehavior.ok v) => ⟨self, true, Except.ok (some v)⟩
  | some (FnBehavior.err e) => ⟨{ self with is_ready := false }, true, Except.error e⟩

/-- Model of one script source as the bridge observes it: whether it compiles,
whether its top-level code runs without error, and the exports its top-level
code produces. -/
structure ScriptModel where
  compiles : Bool
  runOk : Bool
  exports : Exports
deriving DecidableEq, Repr

/-- Trace entries recording what `initialize_script` did, in order. -/
inductive Call where
  | compile (ok : Bool)
  | runChunk (ok : Bool)
  | callSetup
  | callOnLoad
deriving DecidableEq, Repr

/-- Result of `KotoRuntime::initialize_script`: the runtime after the load, an
ordered trace of what happened, and whether the load returned `Ok(())`. -/
structure InitOutcome where
  rt : KotoRuntime
  trace : List Call
  ok : Bool
deriving DecidableEq, Repr

/-- Model of `KotoRuntime::initialize_script` (`src/runtime.rs:336`):
sets `is_ready = false`; compiles; when `call_setup` clears the exports;
runs the chunk (which installs the script's exports); when `call_setup`
invokes `setup` (defaulting the user data to an empty map when `setup` is not
exported, aborting on a setup error); invokes `on_load` when exported
(aborting on error); finally sets `is_ready = true` and succeeds. -/
def initialize_script (self0 : KotoRuntime) (s : ScriptModel) (call_setup : Bool) :
    InitOutcome :=
  let self := { self0 with is_ready := false }
  if s.compiles = false then
    ⟨self, [Call.compile false], false⟩
  else
    let self := if call_setup then { self with exports := Exports.empty } else self
    if s.runOk = false then
      ⟨self, [Call.compile true, Call.runChunk false], false⟩
    else
      let self := { self with exports := Exports.merge self.exports s.exports }
      let afterSetup : Option (KotoRuntime × List Call) :=
        if call_setup then
          let c := run_exported_function self ExportName.setup
          match c.result with
          | Except.ok (some v) => some ({ c.rt with user_data := v }, [Call.callSetup])
          | Except.ok none => some ({ c.rt with user_data := KValue.emptyMap }, [])
          | Except.error _ => none
        else
          some (self, [])
      match afterSetup with
      | none =>
          ⟨{ self with is_ready := false },
            [Call.compile true, Call.runChunk true, Call.callSetup], false⟩
      | some (self2, setupTrace) =>
          let c := run_exported_function self2 ExportName.on_load
          match c.result with
          | Except.error _ =>
              ⟨c.rt,
                [Call.compile true, Call.runChunk true] ++ setupTrace ++ [Call.callOnLoad],
                false⟩
          | Except.ok _ =>
              ⟨{ c.rt with is_ready := true },
                [Call.compile true, Call.runChunk true] ++ setupTrace
                  ++ (if c.invoked then [Call.callOnLoad] else []),
                true⟩

/-- Model of the `KotoTime` resource (`src/runtime.rs:500`): a timer holding
the elapsed seconds, and a `delta` field.  Seconds are modelled as exact
rationals. -/
structure KotoTime where
  timer_elapsed : ℚ
  delta_state : ℚ
deriving DecidableEq, Repr

/-- Model of `KotoTime::current_time`: `self.timer.elapsed_secs_f64()`. -/
def KotoTime.current_time (t : KotoTime) : ℚ := t.timer_elapsed

/-- Model of `KotoTime::delta` (`src/runtime.rs:520`), following the source
body exactly: it returns `self.timer.elapsed_secs_f64()`, not the `delta`
field. -/
def KotoTime.delta (t : KotoTime) : ℚ := t.timer_elapsed

/-- Model of `KotoTime::set_current_time`: sets the timer's elapsed seconds and zeroes
the `delta` field. -/
def KotoTime.set_current_time (_t : KotoTime) (secs : ℚ) : KotoTime :=
  { timer_elapsed := secs, delta_state := 0 }

/-- Model of `KotoTime::advance`: adds `secs` to the current time, clamped to zero. -/
def KotoTime.advance (t : KotoTime) (secs : ℚ) : KotoTime :=
  t.set_current_time (max (t.current_time + secs) 0)

/-- Model of `KotoTime::reset`: sets the current time to zero. -/
def KotoTime.reset (t : KotoTime) : KotoTime := t.set_current_time 0

/-- Model of `KotoTime::update`: stores the frame's virtual-time delta and advances the
timer by it (which, via `set_current_time`, zeroes the `delta` field again). -/
def KotoTime.update (t : KotoTime) (virtual_delta : ℚ) : KotoTime :=
  let t := { t with delta_state := virtual_delta }
  t.advance t.delta_state

/-- Model of the `KotoTimeObject` passed into the script's `update` export:
`run_update` copies `elapsed` from `KotoTime::current_time` and `delta` from
`KotoTime::delta`. -/
structure KotoTimeObject where
  elapsed : ℚ
  delta : ℚ
deriving DecidableEq, Repr

/-- Model of `KotoRuntime::run_update` (`src/runtime.rs:399`): builds the time
object from the `KotoTime` resource, then calls the exported `update` with
`[user_data, time]`.  Returns the runtime after the call, the time object
that was passed, and whether `update` was actually invoked. -/
def KotoRuntime.run_update (self : KotoRuntime) (script_time : KotoTime) :
    KotoRuntime × KotoTimeObject × Bool :=
  let tobj : KotoTimeObject :=
    { elapsed := script_time.current_time, delta := script_time.delta }
  let c := run_exported_function self ExportName.update
  (c.rt, tobj, c.invoked)

/-- Model of the `run_script_update` system (`src/runtime.rs:181`): calls
`run_update` only when `is_ready`. -/
def run_script_update (self : KotoRuntime) (time : KotoTime) :
    KotoRuntime × Option KotoTimeObject × Bool :=
  if self.is_ready then
    let r := self.run_update time
    (r.1, some r.2.1, r.2.2)
  else
    (self, none, false)

/-- One frame of the time pipeline as the schedule runs it: `update_script_timer`
(in `KotoUpdate::PreUpdate`) feeds the frame's virtual delta into `KotoTime`,
and `run_update` (in `KotoUpdate::Update`) then builds the time object passed
to the script. -/
def frameTimeStep (t : KotoTime) (virtual_delta : ℚ) : KotoTime × KotoTimeObject :=
  let t := t.update virtual_delta
  (t, { elapsed := t.current_time, delta := t.delta })

/-- Result of processing one `LoadScript` event. -/
structure LoadOutcome where
  rt : KotoRuntime
  timer : KotoTime
  script_loaded_emitted : Bool
  trace : List Call
  ok : Bool
deriving DecidableEq, Repr

/-- Model of one iteration of `process_load_script_events`
(`src/runtime.rs:153`) for an event whose asset is available: runs
`initialize_script`; on success with `event.reset` it resets the script timer
and emits a `ScriptLoaded` event; on failure it emits nothing and leaves the
timer alone. -/
def process_load_script_event (rt : KotoRuntime) (timer : KotoTime)
    (s : ScriptModel) (reset : Bool) : LoadOutcome :=
  let o := initialize_script rt s reset
  if o.ok then
    if reset then
      ⟨o.rt, timer.reset, true, o.trace, true⟩
    else
      ⟨o.rt, timer, false, o.trace, true⟩
  else
    ⟨o.rt, timer, false, o.trace, false⟩

/-! ## Entities (`src/entity.rs`) -/

/-- The sentinel entity id `bevy::Entity::PLACEHOLDER`
(`Entity::from_raw(u32::MAX)`); entity ids are modelled as naturals. -/
def PLACEHOLDER : Nat := 4294967295

/-- Model of `KotoEntityMapping` (`src/entity.rs:136`): the contents of the
`Arc<RwLock<Entity>>` cell. -/
structure KotoEntityMapping where
  bevy_entity : Nat
deriving DecidableEq, Repr

/-- Model of `KotoEntityMapping::default`: the cell starts at the placeholder. -/
def KotoEntityMapping.default : KotoEntityMapping := ⟨PLACEHOLDER⟩

/-- Model of `KotoEntityMapping::get`: reads the cell. -/
def KotoEntityMapping.get (m : KotoEntityMapping) : Nat := m.bevy_entity

/-- Model of `KotoEntityMapping::assign_bevy_entity` (`src/entity.rs:142`):
`debug_assert!(*inner == Entity::PLACEHOLDER)` then write.  The failed
assertion (a panic in debug builds) is modelled as `none`. -/
def KotoEntityMapping.assign_bevy_entity (m : KotoEntityMapping) (entity : Nat) :
    Option KotoEntityMapping :=
  if m.bevy_entity = PLACEHOLDER then some ⟨entity⟩ else none

/-- Runs a sequence of `assign_bevy_entity` calls against a mapping, stopping
at the first assertion failure. -/
def runAssigns : KotoEntityMapping → List Nat → Option KotoEntityMapping
  | m, [] => some m
  | m, e :: rest =>
      match m.assign_bevy_entity e with
      | none => none
      | some m2 => runAssigns m2 rest

/-- Model of the `KotoEntity` component (`src/entity.rs:96`):
`ref_count` is `object.ref_count()`; `entity` is the current value of the
mapping cell; `on_update` is `Some` when a callback is registered, carrying
whether the call would succeed (`true`) or raise an error (`false`). -/
structure KotoEntity where
  ref_count : Nat
  entity : Nat
  on_update : Option Bool
  is_active : Bool
deriving DecidableEq, Repr

/-- Model of the `on_script_loaded` system (`src/entity.rs:33`): when at least
one `ScriptLoaded` event was read, every `KotoEntity` is marked inactive;
otherwise nothing changes. -/
def on_script_loaded (entities : List KotoEntity) (script_loaded_events : List Unit) :
    List KotoEntity :=
  if script_loaded_events.isEmpty then entities
  else entities.map fun e => { e with is_active := false }

/-- The observable actions of the `update_koto_entities` system: despawn
commands queued in the first pass, and `on_update` invocations made in the
second pass (`ok` records whether the call succeeded or raised an error,
which is only logged). -/
inductive EntityAction where
  | despawn (e : KotoEntity)
  | callOnUpdate (e : KotoEntity) (ok : Bool)
deriving DecidableEq, Repr

/-- The first pass of `update_koto_entities` (`src/entity.rs:56`): the
sequential loop that queues a despawn command for every entity with
`ref_count == 1 || !is_active`. -/
def despawnPass (entities : List KotoEntity) : List EntityAction :=
  (entities.filter fun e => e.ref_count == 1 || !e.is_active).map
    fun e => EntityAction.despawn e

/-- The second pass of `update_koto_entities` (`src/entity.rs:65`): the
parallel `par_iter_mut` loop that invokes `on_update` for every entity with
`is_active && ref_count > 1` that has a callback registered. -/
def updatePass (entities : List KotoEntity) : List EntityAction :=
  entities.filterMap fun e =>
    if e.is_active = true ∧ 1 < e.ref_count then
      match e.on_update with
      | some okFlag => some (EntityAction.callOnUpdate e okFlag)
      | none => none
    else none

/-- Model of the `update_koto_entities` system (`src/entity.rs:49`): the
sequential despawn pass runs first, then the parallel `on_update` dispatch
pass.  A call error in the second pass is logged and nothing more.  The
despawn commands are deferred Bevy `Commands`, so the entity list itself is
not mutated here. -/
def update_koto_entities (entities : List KotoEntity) : List EntityAction :=
  despawnPass entities ++ updatePass entities

/-- The pieces of the Bevy world that the `update_koto_entities` system can
see.  Its Rust parameter list is `(Res<Time>, Query<&mut KotoEntity>,
Commands)`: the `KotoRuntime` resource is not accessible to it. -/
structure FrameWorld where
  rt : KotoRuntime
  entities : List KotoEntity
deriving Repr

/-- The `update_koto_entities` system as a world transition: despawns are
deferred commands and `on_update` errors are only logged, so the world is
returned unchanged together with the action trace. -/
def update_koto_entities_system (w : FrameWorld) : FrameWorld × List EntityAction :=
  (w, update_koto_entities w.entities)

/-- Model of the `UpdateKotoEntity` event payload (`src/entity.rs:121`). -/
inductive UpdateKotoEntityEv where
  | setOnUpdate (f : Option Bool)
  | despawn
deriving DecidableEq, Repr

/-- Model of `KotoEntityEvent<UpdateKotoEntity>`: `entity` is the value of
`event.entity.get()` at drain time. -/
structure EntityEvent where
  entity : Nat
  event : UpdateKotoEntityEv
deriving DecidableEq, Repr

/-- Looks up the `KotoEntity` component of a live entity, mirroring
`query.get_mut(bevy_entity)`. -/
def lookupEntity (world : List (Nat × KotoEntity)) (id : Nat) : Option KotoEntity :=
  (world.find? fun p => p.1 == id).map Prod.snd

/-- Applies `koto_entity.on_update = on_update` to the entity with the given
id. -/
def setOnUpdateInWorld (world : List (Nat × KotoEntity)) (id : Nat) (f : Option Bool) :
    List (Nat × KotoEntity) :=
  world.map fun p => if p.1 == id then (p.1, { p.2 with on_update := f }) else p

/-- Model of the `koto_to_bevy_entity_events` system (`src/entity.rs:79`):
drains the channel in order; for each event it does
`query.get_mut(event.entity.get()).unwrap()` — a failed lookup is an
`unwrap` panic, modelled as `none`.  On success it either sets the entity's
`on_update` or queues a deferred despawn command (returned as a list of
entity ids). -/
def koto_to_bevy_entity_events (world : List (Nat × KotoEntity)) :
    List EntityEvent → Option (List (Nat × KotoEntity) × List Nat)
  | [] => some (world, [])
  | ev :: rest =>
      match lookupEntity world ev.entity with
      | none => none
      | some _ =>
          match ev.event with
          | UpdateKotoEntityEv.setOnUpdate f =>
              koto_to_bevy_entity_events (setOnUpdateInWorld world ev.entity f) rest
          | UpdateKotoEntityEv.despawn =>
              (koto_to_bevy_entity_events world rest).map
                fun r => (r.1, ev.entity :: r.2)

/-! ## The frame-phase schedule

`KotoRuntimePlugin::build` (`src/runtime.rs:56`) initializes the
`KotoSchedule` schedule with the four chained sets `Compile → PreUpdate →
Update → PostUpdate`, and inserts `KotoSchedule` into the main schedule order
directly after Bevy's `PreUpdate`; Bevy's own `Update` therefore runs after
every `KotoSchedule` set.  Phases are listed in execution order within one
frame. -/

/-- The frame phases relevant to the bridge, in per-frame execution order. -/
inductive Phase where
  | bevyPreUpdate
  | kotoCompile
  | kotoPreUpdate
  | kotoUpdate
  | kotoPostUpdate
  | bevyUpdate
  | bevyPostUpdate
deriving DecidableEq, Repr

/-- Execution order of the phases within one frame. -/
def Phase.index : Phase → Nat
  | Phase.bevyPreUpdate => 0
  | Phase.kotoCompile => 1
  | Phase.kotoPreUpdate => 2
  | Phase.kotoUpdate => 3
  | Phase.kotoPostUpdate => 4
  | Phase.bevyUpdate => 5
  | Phase.bevyPostUpdate => 6

/-- The systems registered by `KotoRuntimePlugin`, `KotoEntityPlugin`,
`KotoShapePlugin` and `KotoTextPlugin` that participate in the script/host
bridge. -/
inductive SystemId where
  | process_load_script_events
  | update_script_timer
  | run_script_update
  | on_script_loaded
  | update_koto_entities
  | koto_to_bevy_entity_events
  | spawn_shapes
  | spawn_text
deriving DecidableEq, Repr

/-- The phase each system is registered in, read off the `add_systems` calls:
`src/runtime.rs:99` (runtime systems in `KotoSchedule` sets),
`src/entity.rs:22` (`on_script_loaded` in `KotoUpdate::PreUpdate`,
`update_koto_entities` in `KotoUpdate::PostUpdate`,
`koto_to_bevy_entity_events` in Bevy's `Update`),
`src/shape.rs:27` and `src/text.rs:38` (spawn drains in
`KotoUpdate::PostUpdate`). -/
def phaseOf : SystemId → Phase
  | SystemId.process_load_script_events => Phase.kotoCompile
  | SystemId.update_script_timer => Phase.kotoPreUpdate
  | SystemId.run_script_update => Phase.kotoUpdate
  | SystemId.on_script_loaded => Phase.kotoPreUpdate
  | SystemId.update_koto_entities => Phase.kotoPostUpdate
  | SystemId.koto_to_bevy_entity_events => Phase.bevyUpdate
  | SystemId.spawn_shapes => Phase.kotoPostUpdate
  | SystemId.spawn_text => Phase.kotoPostUpdate

/-- The crossbeam channels that carry mutations from script-call context to
host-mutation context. -/
inductive Channel where
  | updateKotoEntity
  | spawnShape
  | spawnText
deriving DecidableEq, Repr

/-- Which systems can produce events on which channel.  Script code runs
inside `process_load_script_events` (top level, `setup`, `on_load`),
`run_script_update` (the global `update` export) and `update_koto_entities`
(per-entity `on_update` callbacks); any script call can invoke the shape/text
constructors and the `Shape`/`Text` instance methods, all of which send on
these channels (`src/shape.rs`, `src/text.rs`). -/
def producesOn : SystemId → Channel → Bool
  | SystemId.process_load_script_events, _ => true
  | SystemId.run_script_update, _ => true
  | SystemId.update_koto_entities, _ => true
  | _, _ => false

/-- Which system drains which channel: `koto_to_bevy_entity_events` drains the
`UpdateKotoEntity` channel (`src/entity.rs:79`), `spawn_shapes` drains the
`SpawnShape` channel (`src/shape.rs:90`), `spawn_text` drains the `SpawnText`
channel (`src/text.rs`). -/
def consumes : SystemId → Channel → Bool
  | SystemId.koto_to_bevy_entity_events, Channel.updateKotoEntity => true
  | SystemId.spawn_shapes, Channel.spawnShape => true
  | SystemId.spawn_text, Channel.spawnText => true
  | _, _ => false

/-- The spec's same-phase-isolation guarantee, as stated: no consumer of a
channel runs in the same phase as any producer of that channel.  (The
channels are plain queues delivering immediately, so a consumer scheduled in
the same phase as a producer can receive an event within that phase.) -/
def sameFramePhaseIsolation : Prop :=
  ∀ (c : Channel) (p q : SystemId),
    producesOn p c = true → consumes q c = true → phaseOf p ≠ phaseOf q

/-- The claim that the per-entity dispatcher runs in the `Update` phase,
strictly before every phase in which a mutation channel is drained. -/
def dispatcherInUpdatePhase : Prop :=
  phaseOf SystemId.update_koto_entities = Phase.kotoUpdate ∧
  ∀ (q : SystemId) (c : Channel), consumes q c = true →
    (phaseOf SystemId.update_koto_entities).index < (phaseOf q).index

/-! ## The engine lifecycle as a step machine (for the temporal claims) -/

/-- One step of the engine's life: a frame (which runs `run_script_update`),
a `LoadScript` event being processed, or an external call to an exported
function (e.g. the window plugin calling `on_window_size` through
`run_exported_function`). -/
inductive Step where
  | frame
  | load (s : ScriptModel) (reset : Bool)
  | externalCall (name : ExportName)
deriving Repr

/-- A record of one executed step: the runtime before and after, whether the
global `update` export was invoked, and whether the step was a load that
succeeded. -/
structure StepRecord where
  before : KotoRuntime
  after : KotoRuntime
  update_invoked : Bool
  load_succeeded : Bool
deriving Repr

/-- Executes one step against the runtime. -/
def engineStep (rt : KotoRuntime) : Step → KotoRuntime × Bool × Bool
  | Step.frame =>
      if rt.is_ready then
        let c := run_exported_function rt ExportName.update
        (c.rt, c.invoked, false)
      else
        (rt, false, false)
  | Step.load s reset =>
      let o := initialize_script rt s reset
      (o.rt, false, o.ok)
  | Step.externalCall name =>
      let c := run_exported_function rt name
      (c.rt, false, false)

/-- Executes a list of steps, producing one record per step. -/
def engineRun : KotoRuntime → List Step → List StepRecord
  | _, [] => []
  | rt, st :: rest =>
      let r := engineStep rt st
      ⟨rt, r.1, r.2.1, r.2.2⟩ :: engineRun r.1 rest

/-! ## Theorems -/

/-- Claim C5: the claim states that the Per-Entity Update Dispatcher
(`update_koto_entities`) executes in the Update phase, strictly before the
PostUpdate phase in which mutation channels are drained.  This is false:
`src/entity.rs:26` registers `update_koto_entities` in
`KotoUpdate::PostUpdate`, and `spawn_shapes`/`spawn_text` drain their
channels in that same set. -/
theorem C5_counterexample : ¬ dispatcherInUpdatePhase := by
  intro h
  exact absurd h.1 (by decide)

/-- Claim C5 (amended): the Per-Entity Update Dispatcher executes in the
`KotoUpdate::PostUpdate` set of the `KotoSchedule`, after the `Update` set
that runs the global script update; the entity-event drain
(`koto_to_bevy_entity_events`) runs in Bevy's `Update` schedule, strictly
after every `KotoSchedule` set, while the shape/text spawn drains share the
dispatcher's `KotoUpdate::PostUpdate` phase. -/
theorem C5_amended_schedule :
    phaseOf SystemId.update_koto_entities = Phase.kotoPostUpdate ∧
    (phaseOf SystemId.run_script_update).index
        < (phaseOf SystemId.update_koto_entities).index ∧
    (phaseOf SystemId.update_koto_entities).index
        < (phaseOf SystemId.koto_to_bevy_entity_events).index ∧
    phaseOf SystemId.spawn_shapes = phaseOf SystemId.update_koto_entities ∧
    phaseOf SystemId.spawn_text = phaseOf SystemId.update_koto_entities := by
  decide

/-- Claim C8: the claim states that no consumer of a koto channel runs in the
same phase as any producer of that channel.  This is false: per-entity
`on_update` callbacks (run inside `update_koto_entities`, in
`KotoUpdate::PostUpdate`) can send `SpawnShape` events, and the consumer
`spawn_shapes` is registered in that same `KotoUpdate::PostUpdate` set
(`src/shape.rs:27`). -/
theorem C8_counterexample : ¬ sameFramePhaseIsolation := by
  intro h
  exact h Channel.spawnShape SystemId.update_koto_entities SystemId.spawn_shapes
    rfl rfl rfl

/-- Claim C8 (amended): events sent on the `UpdateKotoEntity` channel are
always consumed in a strictly later phase (Bevy's `Update` schedule) than
every producing system's phase; for the `SpawnShape`/`SpawnText` channels the
strictly-later-phase guarantee holds for every producer except
`update_koto_entities`, whose `KotoUpdate::PostUpdate` phase is shared with
the spawn drains, so same-phase receipt is possible there. -/
theorem C8_amended_isolation :
    (∀ p : SystemId, producesOn p Channel.updateKotoEntity = true →
      (phaseOf p).index < (phaseOf SystemId.koto_to_bevy_entity_events).index) ∧
    (∀ p : SystemId, p ≠ SystemId.update_koto_entities →
      producesOn p Channel.spawnShape = true →
      (phaseOf p).index < (phaseOf SystemId.spawn_shapes).index) ∧
    (∀ p : SystemId, p ≠ SystemId.update_koto_entities →
      producesOn p Channel.spawnText = true →
      (phaseOf p).index < (phaseOf SystemId.spawn_text).index) ∧
    phaseOf SystemId.update_koto_entities = phaseOf SystemId.spawn_shapes := by
  refine ⟨?_, ?_, ?_, rfl⟩ <;> intro p <;> cases p <;> decide

/-- Witness for C8 (amended): the global-update system is a producer on the
`UpdateKotoEntity` channel and runs in an earlier phase than its drain. -/
theorem C8_amended_witness :
    producesOn SystemId.run_script_update Channel.updateKotoEntity = true ∧
    (phaseOf SystemId.run_script_update).index
        < (phaseOf SystemId.koto_to_bevy_entity_events).index :=
  ⟨rfl, C8_amended_isolation.1 SystemId.run_script_update rfl⟩

/-- Claim C6: the claim (and the doc comment on `KotoTime::delta`,
`src/runtime.rs:517`) says the `delta` carried by the time value passed to
the script's `update` export is the time elapsed since the previous update.
The code instead returns `self.timer.elapsed_secs_f64()` from
`KotoTime::delta`, so the script receives the total elapsed time as its
delta: after two frames of one-half second each, the script sees
`delta = 1`, not `1/2`.  (The `delta` field itself is also zeroed on every
`KotoTime::update`, because `advance` calls `set_current_time`.) -/
theorem C6_delta_is_elapsed :
    (∀ t : KotoTime, t.delta = t.current_time) ∧
    ((frameTimeStep (frameTimeStep (KotoTime.reset ⟨0, 0⟩) (1 / 2)).1 (1 / 2)).2.delta
        = 1 ∧
      (frameTimeStep (frameTimeStep (KotoTime.reset ⟨0, 0⟩) (1 / 2)).1 (1 / 2)).2.elapsed
        = 1 ∧
      (1 : ℚ) ≠ 1 / 2) ∧
    (∀ (t : KotoTime) (d : ℚ), (t.update d).delta_state = 0) := by
  refine ⟨fun t => rfl, ⟨?_, ?_, by norm_num⟩, fun t d => rfl⟩ <;>
    simp [frameTimeStep, KotoTime.update, KotoTime.advance, KotoTime.set_current_time,
      KotoTime.reset, KotoTime.current_time, KotoTime.delta] <;> norm_num

/-- Claim C7: a `KotoEntityMapping` reads as the placeholder before
`assign_bevy_entity` and as the assigned entity afterwards; the assignment's
debug assertion means it can succeed at most once (when the assigned ids are
concrete, i.e. not the placeholder), and once the cell holds a concrete id no
operation can return it to the placeholder. -/
theorem C7_mapping (es : List Nat) (h : ∀ e ∈ es, e ≠ PLACEHOLDER) :
    KotoEntityMapping.default.get = PLACEHOLDER ∧
    (∀ e, (KotoEntityMapping.default.assign_bevy_entity e).map KotoEntityMapping.get
        = some e) ∧
    (∀ m : KotoEntityMapping, m.get ≠ PLACEHOLDER → ∀ e, m.assign_bevy_entity e = none) ∧
    (∀ m, runAssigns KotoEntityMapping.default es = some m →
      (es = [] ∧ m.get = PLACEHOLDER) ∨ ∃ e, es = [e] ∧ m.get = e) := by
  refine ⟨rfl, fun e => rfl, ?_, ?_⟩
  · intro m hm e
    simp only [KotoEntityMapping.assign_bevy_entity, ite_eq_right_iff]
    intro heq
    exact absurd heq hm
  · intro m hrun
    match es, h with
    | [], _ =>
        left
        refine ⟨rfl, ?_⟩
        simp only [runAssigns, Option.some.injEq] at hrun
        simp [← hrun]
        rfl
    | e :: rest, h =>
        right
        have he : e ≠ PLACEHOLDER := h e (List.mem_cons_self e rest)
        have hstep : KotoEntityMapping.default.assign_bevy_entity e = some ⟨e⟩ := by
          simp [KotoEntityMapping.assign_bevy_entity, KotoEntityMapping.default]
        simp only [runAssigns, hstep] at hrun
        match rest with
        | [] =>
            simp only [runAssigns, Option.some.injEq] at hrun
            exact ⟨e, rfl, by simp [← hrun, KotoEntityMapping.get]⟩
        | e2 :: rest2 =>
            have hfail : KotoEntityMapping.assign_bevy_entity ⟨e⟩ e2 = none := by
              simp [KotoEntityMapping.assign_bevy_entity, he]
            simp only [runAssigns, hfail] at hrun
            exact absurd hrun (by simp)

/-- Witness for C7: assigning the concrete entity 7 to a fresh mapping
succeeds and the mapping then reads 7. -/
theorem C7_mapping_witness :
    (∀ e ∈ [7], e ≠ PLACEHOLDER) ∧
    (∀ m, runAssigns KotoEntityMapping.default [7] = some m →
      ([7] = ([] : List Nat) ∧ m.get = PLACEHOLDER) ∨ ∃ e, [7] = [e] ∧ m.get = e) :=
  ⟨by decide, (C7_mapping [7] (by decide)).2.2.2⟩

/-- Any `callOnUpdate` action produced by the second pass comes from an entity
of the queried list that is active, has reference count above one, and has
that callback registered. -/
theorem mem_updatePass {entities : List KotoEntity} {e : KotoEntity} {ok : Bool}
    (h : EntityAction.callOnUpdate e ok ∈ updatePass entities) :
    e ∈ entities ∧ e.is_active = true ∧ 1 < e.ref_count ∧ e.on_update = some ok := by
  obtain ⟨a, ha, hfa⟩ := List.mem_filterMap.mp h
  by_cases hcond : a.is_active = true ∧ 1 < a.ref_count
  · rw [if_pos hcond] at hfa
    cases hu : a.on_update with
    | none => rw [hu] at hfa; simp at hfa
    | some fl =>
        rw [hu] at hfa
        simp only [Option.some.injEq, EntityAction.callOnUpdate.injEq] at hfa
        obtain ⟨hae, hfo⟩ := hfa
        subst hae
        subst hfo
        exact ⟨ha, hcond.1, hcond.2, hu⟩
  · rw [if_neg hcond] at hfa
    simp at hfa

/-- Claim C1: in each frame's per-entity dispatch, every record with
`is_active == false` or reference count one is scheduled for despawn and has
no `on_update` invocation that frame; `on_update` is invoked only for records
with `is_active == true` and reference count above one; and the despawn pass
precedes the dispatch pass (the action trace is the despawn commands followed
by the callback invocations). -/
theorem C1_dispatch (entities : List KotoEntity) :
    (∀ e ∈ entities, (e.is_active = false ∨ e.ref_count = 1) →
        EntityAction.despawn e ∈ update_koto_entities entities) ∧
    (∀ e ok, EntityAction.callOnUpdate e ok ∈ update_koto_entities entities →
        e.is_active = true ∧ 1 < e.ref_count) ∧
    (∀ e, (e.is_active = false ∨ e.ref_count = 1) →
        ∀ ok, EntityAction.callOnUpdate e ok ∉ update_koto_entities entities) ∧
    update_koto_entities entities = despawnPass entities ++ updatePass entities ∧
    (∀ a ∈ despawnPass entities, ∃ e, a = EntityAction.despawn e) ∧
    (∀ a ∈ updatePass entities, ∃ e ok, a = EntityAction.callOnUpdate e ok) := by
  refine ⟨?_, ?_, ?_, rfl, ?_, ?_⟩
  · intro e he hcond
    apply List.mem_append_left
    simp only [despawnPass, List.mem_map]
    refine ⟨e, List.mem_filter.mpr ⟨he, ?_⟩, rfl⟩
    rcases hcond with hA | hRc
    · simp [hA]
    · simp [hRc]
  · intro e ok hmem
    rcases List.mem_append.mp hmem with hL | hR
    · simp only [despawnPass, List.mem_map] at hL
      obtain ⟨a, _, heq⟩ := hL
      simp at heq
    · have h := mem_updatePass hR
      exact ⟨h.2.1, h.2.2.1⟩
  · intro e hcond ok hmem
    rcases List.mem_append.mp hmem with hL | hR
    · simp only [despawnPass, List.mem_map] at hL
      obtain ⟨a, _, heq⟩ := hL
      simp at heq
    · obtain ⟨_, hact, hrc, _⟩ := mem_updatePass hR
      rcases hcond with hA | hR1
      · rw [hA] at hact
        simp at hact
      · omega
  · intro a ha
    simp only [despawnPass, List.mem_map] at ha
    obtain ⟨e, _, rfl⟩ := ha
    exact ⟨e, rfl⟩
  · intro a ha
    simp only [updatePass, List.mem_filterMap] at ha
    obtain ⟨x, _, hfx⟩ := ha
    by_cases hcond : x.is_active = true ∧ 1 < x.ref_count
    · rw [if_pos hcond] at hfx
      cases hu : x.on_update with
      | none => rw [hu] at hfx; simp at hfx
      | some fl =>
          rw [hu] at hfx
          exact ⟨x, fl, (Option.some_inj.mp hfx).symm⟩
    · rw [if_neg hcond] at hfx
      simp at hfx

/-- Witness for C1: an active entity whose object's reference count is one is
scheduled for despawn. -/
theorem C1_dispatch_witness :
    ((⟨1, 7, none, true⟩ : KotoEntity).is_active = false ∨
        (⟨1, 7, none, true⟩ : KotoEntity).ref_count = 1) ∧
    EntityAction.despawn ⟨1, 7, none, true⟩ ∈ update_koto_entities [⟨1, 7, none, true⟩] :=
  ⟨Or.inr rfl, (C1_dispatch [⟨1, 7, none, true⟩]).1 _ (by decide) (Or.inr rfl)⟩

/-- Claim C9: a per-entity `on_update` error is only logged: the
`update_koto_entities` system leaves the world (in particular the engine's
ready flag, which it cannot even access) unchanged, and every other eligible
entity's callback is still invoked in the same pass. -/
theorem C9_per_entity_isolation (w : FrameWorld) :
    (update_koto_entities_system w).1 = w ∧
    (update_koto_entities_system w).1.rt.is_ready = w.rt.is_ready ∧
    (∀ e ∈ w.entities, e.is_active = true → 1 < e.ref_count →
      ∀ okFlag, e.on_update = some okFlag →
        EntityAction.callOnUpdate e okFlag ∈ (update_koto_entities_system w).2) := by
  refine ⟨rfl, rfl, ?_⟩
  intro e he hact hrc okFlag hu
  simp only [update_koto_entities_system, update_koto_entities]
  apply List.mem_append_right
  simp only [updatePass, List.mem_filterMap]
  exact ⟨e, he, by rw [if_pos ⟨hact, hrc⟩, hu]⟩

/-- Witness for C9: with one entity whose callback errors and one whose
callback succeeds, the successful entity's callback is still invoked. -/
theorem C9_per_entity_isolation_witness :
    EntityAction.callOnUpdate ⟨2, 2, some true, true⟩ true ∈
      (update_koto_entities_system
        ⟨⟨Exports.empty, KValue.null, true⟩,
          [⟨2, 1, some false, true⟩, ⟨2, 2, some true, true⟩]⟩).2 :=
  (C9_per_entity_isolation _).2.2 ⟨2, 2, some true, true⟩ (by decide) rfl (by decide)
    true rfl

/-- An entity lookup succeeds exactly when the id is among the world's live
entity ids. -/
theorem lookupEntity_isSome_iff (w : List (Nat × KotoEntity)) (j : Nat) :
    (lookupEntity w j).isSome ↔ j ∈ w.map Prod.fst := by
  unfold lookupEntity
  rw [Option.isSome_map', List.find?_isSome]
  simp only [List.mem_map, beq_iff_eq]

/-- Setting an entity's `on_update` does not change the set of live entity
ids. -/
theorem setOnUpdateInWorld_fst (w : List (Nat × KotoEntity)) (id f) :
    (setOnUpdateInWorld w id f).map Prod.fst = w.map Prod.fst := by
  induction w with
  | nil => rfl
  | cons p rest ih =>
      simp only [setOnUpdateInWorld, List.map_cons] at *
      by_cases hp : (p.1 == id) = true
      · simp only [hp, if_true, ih]
      · simp only [hp, if_false, Bool.false_eq_true, ih]

/-- Setting an entity's `on_update` preserves whether any lookup succeeds. -/
theorem lookup_isSome_preserved (w : List (Nat × KotoEntity)) (id f j) :
    (lookupEntity (setOnUpdateInWorld w id f) j).isSome = (lookupEntity w j).isSome := by
  rw [Bool.eq_iff_iff, lookupEntity_isSome_iff, lookupEntity_isSome_iff,
    setOnUpdateInWorld_fst]

/-- Claim C10: the event drain `koto_to_bevy_entity_events` succeeds exactly
when every drained event's identity mapping resolves to a live entity
carrying a `KotoEntity` component; in particular, when a mapping is still the
placeholder (and no live entity has the placeholder id) the system panics
(`query.get_mut(..).unwrap()`), modelled as `none`, instead of skipping the
event. -/
theorem C10_drain_presupposes_creation (world : List (Nat × KotoEntity))
    (events : List EntityEvent) :
    ((koto_to_bevy_entity_events world events).isSome ↔
      ∀ ev ∈ events, (lookupEntity world ev.entity).isSome) ∧
    ((∀ p ∈ world, p.1 ≠ PLACEHOLDER) →
      ∀ ev ∈ events, ev.entity = PLACEHOLDER →
        koto_to_bevy_entity_events world events = none) := by
  have main : ∀ (w : List (Nat × KotoEntity)),
      (koto_to_bevy_entity_events w events).isSome ↔
        ∀ ev ∈ events, (lookupEntity w ev.entity).isSome := by
    induction events with
    | nil =>
        intro w
        simp [koto_to_bevy_entity_events]
    | cons ev rest ih =>
        intro w
        cases hl : lookupEntity w ev.entity with
        | none =>
            simp only [koto_to_bevy_entity_events, hl]
            constructor
            · intro h
              simp at h
            · intro h
              have h2 := h ev (List.mem_cons_self ev rest)
              rw [hl] at h2
              simp at h2
        | some e =>
            cases hevk : ev.event with
            | setOnUpdate f =>
                simp only [koto_to_bevy_entity_events, hl, hevk]
                rw [ih (setOnUpdateInWorld w ev.entity f)]
                constructor
                · intro h ev2 hev2
                  rcases List.mem_cons.mp hev2 with heq | h2
                  · subst heq
                    rw [hl]
                    rfl
                  · have h3 := h ev2 h2
                    rwa [lookup_isSome_preserved] at h3
                · intro h ev2 hev2
                  have h3 := h ev2 (List.mem_cons_of_mem ev hev2)
                  rw [← lookup_isSome_preserved w ev.entity f ev2.entity] at h3
                  exact h3
            | despawn =>
                simp only [koto_to_bevy_entity_events, hl, hevk, Option.isSome_map']
                rw [ih w]
                constructor
                · intro h ev2 hev2
                  rcases List.mem_cons.mp hev2 with heq | h2
                  · subst heq
                    rw [hl]
                    rfl
                  · exact h ev2 h2
                · intro h ev2 hev2
                  exact h ev2 (List.mem_cons_of_mem ev hev2)
  refine ⟨main world, ?_⟩
  intro hnp ev hev hevP
  have hnone : lookupEntity world PLACEHOLDER = none := by
    rw [← Option.not_isSome_iff_eq_none, lookupEntity_isSome_iff]
    simp only [List.mem_map]
    rintro ⟨p, hp, hp1⟩
    exact hnp p hp hp1
  rw [← Option.not_isSome_iff_eq_none]
  intro hs
  have h2 := (main world).mp hs ev hev
  rw [hevP, hnone] at h2
  simp at h2

/-- Witness for C10: draining a despawn event whose mapping is still the
placeholder panics when the world holds only the concrete entity 5. -/
theorem C10_drain_witness :
    (∀ p ∈ [(5, (⟨2, 5, none, true⟩ : KotoEntity))], p.1 ≠ PLACEHOLDER) ∧
    koto_to_bevy_entity_events [(5, ⟨2, 5, none, true⟩)]
        [⟨PLACEHOLDER, UpdateKotoEntityEv.despawn⟩] = none :=
  ⟨by decide,
    (C10_drain_presupposes_creation _ _).2 (by decide)
      ⟨PLACEHOLDER, UpdateKotoEntityEv.despawn⟩ (by decide) rfl⟩

/-- Merging a script's exports over a cleared table yields exactly the
script's exports. -/
theorem Exports.merge_empty (e : Exports) : Exports.merge Exports.empty e = e := by
  cases e with
  | mk a b c d => cases a <;> cases b <;> cases c <;> cases d <;> rfl

/-- A call error inside `run_exported_function` clears the ready flag. -/
theorem run_exported_error_not_ready (rt : KotoRuntime) (name : ExportName) (e : Nat)
    (h : (run_exported_function rt name).result = Except.error e) :
    (run_exported_function rt name).rt.is_ready = false := by
  unfold run_exported_function at *
  cases hg : rt.exports.get name with
  | none =>
      rw [hg] at h
      simp at h
  | some b =>
      cases b with
      | ok v =>
          rw [hg] at h
          simp at h
      | err m => rfl

/-- The function `run_exported_function` never sets the ready flag. -/
theorem run_exported_preserves_unready (rt : KotoRuntime) (name : ExportName)
    (h : rt.is_ready = false) : (run_exported_function rt name).rt.is_ready = false := by
  unfold run_exported_function
  cases rt.exports.get name with
  | none => exact h
  | some b =>
      cases b with
      | ok v => exact h
      | err m => rfl

/-- The function `run_exported_function` leaves the engine ready only if it was ready
before the call. -/
theorem run_exported_ready (rt : KotoRuntime) (name : ExportName)
    (h : (run_exported_function rt name).rt.is_ready = true) : rt.is_ready = true := by
  unfold run_exported_function at h
  cases hg : rt.exports.get name with
  | none =>
      rw [hg] at h
      exact h
  | some b =>
      cases b with
      | ok v =>
          rw [hg] at h
          exact h
      | err m =>
          rw [hg] at h
          simp at h

/-- After `initialize_script`, the runtime is ready exactly when the load
succeeded. -/
theorem initialize_ready_eq_ok (rt : KotoRuntime) (s : ScriptModel) (c : Bool) :
    (initialize_script rt s c).rt.is_ready = (initialize_script rt s c).ok := by
  simp only [initialize_script]
  repeat' split
  all_goals
    first
      | rfl
      | (rename_i heq; exact run_exported_error_not_ready _ _ _ heq)

/-- Claim C3: a load in which any step fails returns an error and leaves the
engine not ready (Faulted); a `ScriptLoaded` event is emitted exactly for a
successful load with reset; and entity records change their `is_active` flag
only in response to a `ScriptLoaded` event (with no event they are untouched,
with an event they are all marked inactive). -/
theorem C3_failed_load (rt : KotoRuntime) (timer : KotoTime) (s : ScriptModel)
    (reset : Bool) :
    ((process_load_script_event rt timer s reset).ok = false →
      (process_load_script_event rt timer s reset).rt.is_ready = false ∧
      (process_load_script_event rt timer s reset).script_loaded_emitted = false) ∧
    ((process_load_script_event rt timer s reset).script_loaded_emitted = true ↔
      ((process_load_script_event rt timer s reset).ok = true ∧ reset = true)) ∧
    (∀ entities, on_script_loaded entities [] = entities) ∧
    (∀ entities events, events ≠ ([] : List Unit) →
      ∀ e ∈ on_script_loaded entities events, e.is_active = false) := by
  have hro := initialize_ready_eq_ok rt s reset
  refine ⟨?_, ?_, ?_, ?_⟩
  · intro hok
    cases hI : (initialize_script rt s reset).ok with
    | false =>
        constructor
        · simp [process_load_script_event, hI, hro]
        · simp [process_load_script_event, hI]
    | true =>
        exfalso
        cases reset <;> simp [process_load_script_event, hI] at hok
  · cases hI : (initialize_script rt s reset).ok with
    | false => cases reset <;> simp [process_load_script_event, hI]
    | true => cases reset <;> simp [process_load_script_event, hI]
  · intro entities
    simp [on_script_loaded]
  · intro entities events hne e he
    have hie : events.isEmpty = false := by
      cases events with
      | nil => exact absurd rfl hne
      | cons a l => rfl
    unfold on_script_loaded at he
    rw [hie] at he
    simp only [Bool.false_eq_true, if_false] at he
    obtain ⟨x, _, rfl⟩ := List.mem_map.mp he
    rfl

/-- Witness for C3: loading a script that fails to compile returns an error,
leaves the engine not ready, and emits no `ScriptLoaded` event. -/
theorem C3_failed_load_witness :
    (process_load_script_event ⟨Exports.empty, KValue.null, true⟩ ⟨0, 0⟩
        ⟨false, true, Exports.empty⟩ true).ok = false ∧
    ((process_load_script_event ⟨Exports.empty, KValue.null, true⟩ ⟨0, 0⟩
        ⟨false, true, Exports.empty⟩ true).rt.is_ready = false ∧
      (process_load_script_event ⟨Exports.empty, KValue.null, true⟩ ⟨0, 0⟩
        ⟨false, true, Exports.empty⟩ true).script_loaded_emitted = false) :=
  ⟨rfl,
    (C3_failed_load ⟨Exports.empty, KValue.null, true⟩ ⟨0, 0⟩
      ⟨false, true, Exports.empty⟩ true).1 rfl⟩

/-- If a step leaves the engine ready, either it was already ready before the
step or the step was a successful load. -/
theorem engineStep_ready (rt : KotoRuntime) (st : Step)
    (h : (engineStep rt st).1.is_ready = true) :
    rt.is_ready = true ∨ (engineStep rt st).2.2 = true := by
  cases st with
  | frame =>
      simp only [engineStep] at h
      by_cases hr : rt.is_ready = true
      · exact Or.inl hr
      · rw [if_neg hr] at h
        exact Or.inl h
  | load s reset =>
      right
      simp [engineStep] at h ⊢
      rw [← initialize_ready_eq_ok]
      exact h
  | externalCall name =>
      simp [engineStep] at h
      exact Or.inl (run_exported_ready rt name h)

/-- Claim C4: the global `update` export is invoked in a frame only when the
engine is ready at that frame; any exported-function call error clears the
ready flag; and once the engine is not ready, no later frame invokes `update`
until some load succeeds (in any step sequence without a successful load,
`update` is never invoked). -/
theorem C4_update_gating :
    (∀ (rt : KotoRuntime) (steps : List Step),
      ∀ r ∈ engineRun rt steps, r.update_invoked = true → r.before.is_ready = true) ∧
    (∀ (rt : KotoRuntime) (name : ExportName) (e : Nat),
      (run_exported_function rt name).result = Except.error e →
      (run_exported_function rt name).rt.is_ready = false) ∧
    (∀ (rt : KotoRuntime) (steps : List Step), rt.is_ready = false →
      (∀ r ∈ engineRun rt steps, r.load_succeeded = false) →
      ∀ r ∈ engineRun rt steps, r.update_invoked = false) := by
  refine ⟨?_, run_exported_error_not_ready, ?_⟩
  · intro rt steps
    induction steps generalizing rt with
    | nil =>
        intro r hr
        simp [engineRun] at hr
    | cons st rest ih =>
        intro r hr
        rcases List.mem_cons.mp hr with heq | htail
        · subst heq
          intro hinv
          cases st with
          | frame =>
              by_cases hready : rt.is_ready = true
              · exact hready
              · exfalso
                simp only [engineStep, if_neg hready] at hinv
                simp at hinv
          | load s reset =>
              exfalso
              simp only [engineStep] at hinv
              simp at hinv
          | externalCall name =>
              exfalso
              simp only [engineStep] at hinv
              simp at hinv
        · exact ih _ r htail
  · intro rt steps
    induction steps generalizing rt with
    | nil =>
        intro _ _ r hr
        simp [engineRun] at hr
    | cons st rest ih =>
        intro hunready hnoload r hr
        have hheadload : (engineStep rt st).2.2 = false :=
          hnoload ⟨rt, (engineStep rt st).1, (engineStep rt st).2.1, (engineStep rt st).2.2⟩
            (List.mem_cons_self _ _)
        have hafter : (engineStep rt st).1.is_ready = false := by
          cases hq : (engineStep rt st).1.is_ready with
          | false => rfl
          | true =>
              rcases engineStep_ready rt st hq with hb | hl
              · rw [hunready] at hb
                exact absurd hb (by simp)
              · rw [hheadload] at hl
                exact absurd hl (by simp)
        rcases List.mem_cons.mp hr with heq | htail
        · subst heq
          cases st with
          | frame =>
              simp only [engineStep, if_neg (by rw [hunready]; simp : ¬rt.is_ready = true)]
          | load s reset => rfl
          | externalCall name => rfl
        · exact ih _ hafter
            (fun r2 hr2 => hnoload r2 (List.mem_cons_of_mem _ hr2)) r htail

/-- Witness for C4: starting from a not-ready engine, a frame does not invoke
the global `update`. -/
theorem C4_update_gating_witness :
    (⟨Exports.empty, KValue.null, false⟩ : KotoRuntime).is_ready = false ∧
    StepRecord.update_invoked
      ⟨⟨Exports.empty, KValue.null, false⟩, ⟨Exports.empty, KValue.null, false⟩,
        false, false⟩ = false :=
  ⟨rfl,
    C4_update_gating.2.2 ⟨Exports.empty, KValue.null, false⟩ [Step.frame] rfl
      (by intro r hr; simp [engineRun, engineStep] at hr; simp [hr])
      ⟨⟨Exports.empty, KValue.null, false⟩, ⟨Exports.empty, KValue.null, false⟩,
        false, false⟩
      (by simp [engineRun, engineStep])⟩

/-- Claim C2: for every successful load — with reset, the previous exports
are cleared (the resulting table is exactly the script's exports), `setup` is
invoked and its result becomes the user data (defaulting to an empty map when
`setup` is not exported), and the script timer is reset to zero; without
reset, `setup` is not invoked and the user data is preserved; in both cases
`on_load` is invoked (when exported) after compilation and top-level
execution (the trace starts with the successful compile and chunk run, and
`callOnLoad` appears later in it). -/
theorem C2_load_protocol (rt : KotoRuntime) (timer : KotoTime) (s : ScriptModel)
    (reset : Bool)
    (hok : (process_load_script_event rt timer s reset).ok = true) :
    (reset = true →
      (process_load_script_event rt timer s reset).rt.exports = s.exports ∧
      (∀ v, s.exports.setup = some (FnBehavior.ok v) →
        (process_load_script_event rt timer s reset).rt.user_data = v ∧
        Call.callSetup ∈ (process_load_script_event rt timer s reset).trace) ∧
      (s.exports.setup = none →
        (process_load_script_event rt timer s reset).rt.user_data = KValue.emptyMap ∧
        Call.callSetup ∉ (process_load_script_event rt timer s reset).trace) ∧
      (process_load_script_event rt timer s reset).timer.current_time = 0 ∧
      (process_load_script_event rt timer s reset).timer.delta_state = 0) ∧
    (reset = false →
      Call.callSetup ∉ (process_load_script_event rt timer s reset).trace ∧
      (process_load_script_event rt timer s reset).rt.user_data = rt.user_data ∧
      (process_load_script_event rt timer s reset).timer = timer) ∧
    (∃ mid, (process_load_script_event rt timer s reset).trace
        = Call.compile true :: Call.runChunk true :: mid ∧
      ((Exports.merge (if reset = true then Exports.empty else rt.exports)
          s.exports).on_load ≠ none → Call.callOnLoad ∈ mid)) := by
  have hc : s.compiles = true := by
    by_contra hcne
    have hcf : s.compiles = false := by
      cases hcb : s.compiles
      · rfl
      · exact absurd hcb hcne
    simp [process_load_script_event, initialize_script, hcf] at hok
  have hr : s.runOk = true := by
    by_contra hrne
    have hrf : s.runOk = false := by
      cases hrb : s.runOk
      · rfl
      · exact absurd hrb hrne
    simp [process_load_script_event, initialize_script, hc, hrf] at hok
  cases reset with
  | false =>
      cases honl : (Exports.merge rt.exports s.exports).on_load with
      | none =>
          have hP : process_load_script_event rt timer s false =
              ⟨⟨Exports.merge rt.exports s.exports, rt.user_data, true⟩, timer, false,
                [Call.compile true, Call.runChunk true], true⟩ := by
            simp [process_load_script_event, initialize_script, run_exported_function,
              Exports.get, hc, hr, honl]
          rw [hP]
          refine ⟨fun h => by simp at h, fun _ => ⟨by simp, rfl, rfl⟩,
            ⟨[], rfl, fun h => absurd honl h⟩⟩
      | some b =>
          cases b with
          | ok w =>
              have hP : process_load_script_event rt timer s false =
                  ⟨⟨Exports.merge rt.exports s.exports, rt.user_data, true⟩, timer, false,
                    [Call.compile true, Call.runChunk true, Call.callOnLoad], true⟩ := by
                simp [process_load_script_event, initialize_script, run_exported_function,
                  Exports.get, hc, hr, honl]
              rw [hP]
              refine ⟨fun h => by simp at h, fun _ => ⟨by simp, rfl, rfl⟩,
                ⟨[Call.callOnLoad], rfl, fun _ => by simp⟩⟩
          | err m =>
              exfalso
              simp [process_load_script_event, initialize_script, run_exported_function,
                Exports.get, hc, hr, honl] at hok
  | true =>
      cases hsetup : s.exports.setup with
      | some b =>
          cases b with
          | err m =>
              exfalso
              simp [process_load_script_event, initialize_script, run_exported_function,
                Exports.get, Exports.merge_empty, hc, hr, hsetup] at hok
          | ok v =>
              cases honl : s.exports.on_load with
              | none =>
                  have hP : process_load_script_event rt timer s true =
                      ⟨⟨s.exports, v, true⟩, timer.reset, true,
                        [Call.compile true, Call.runChunk true, Call.callSetup], true⟩ := by
                    simp [process_load_script_event, initialize_script,
                      run_exported_function, Exports.get, Exports.merge_empty, hc, hr,
                      hsetup, honl]
                  rw [hP]
                  refine ⟨fun _ => ⟨rfl, ?_, ?_, rfl, rfl⟩, fun h => by simp at h,
                    ⟨[Call.callSetup], rfl, fun h => ?_⟩⟩
                  · intro v2 hv2
                    simp only [Option.some.injEq, FnBehavior.ok.injEq] at hv2
                    exact ⟨hv2, by simp⟩
                  · intro hnone
                    simp at hnone
                  · rw [if_pos rfl, Exports.merge_empty, honl] at h
                    exact absurd rfl h
              | some b2 =>
                  cases b2 with
                  | ok w =>
                      have hP : process_load_script_event rt timer s true =
                          ⟨⟨s.exports, v, true⟩, timer.reset, true,
                            [Call.compile true, Call.runChunk true, Call.callSetup,
                              Call.callOnLoad], true⟩ := by
                        simp [process_load_script_event, initialize_script,
                          run_exported_function, Exports.get, Exports.merge_empty, hc, hr,
                          hsetup, honl]
                      rw [hP]
                      refine ⟨fun _ => ⟨rfl, ?_, ?_, rfl, rfl⟩, fun h => by simp at h,
                        ⟨[Call.callSetup, Call.callOnLoad], rfl, fun _ => by simp⟩⟩
                      · intro v2 hv2
                        simp only [Option.some.injEq, FnBehavior.ok.injEq] at hv2
                        exact ⟨hv2, by simp⟩
                      · intro hnone
                        simp at hnone
                  | err m =>
                      exfalso
                      simp [process_load_script_event, initialize_script,
                        run_exported_function, Exports.get, Exports.merge_empty, hc, hr,
                        hsetup, honl] at hok
      | none =>
          cases honl : s.exports.on_load with
          | none =>
              have hP : process_load_script_event rt timer s true =
                  ⟨⟨s.exports, KValue.emptyMap, true⟩, timer.reset, true,
                    [Call.compile true, Call.runChunk true], true⟩ := by
                simp [process_load_script_event, initialize_script, run_exported_function,
                  Exports.get, Exports.merge_empty, hc, hr, hsetup, honl]
              rw [hP]
              refine ⟨fun _ => ⟨rfl, ?_, fun _ => ⟨rfl, by simp⟩, rfl, rfl⟩,
                fun h => by simp at h, ⟨[], rfl, fun h => ?_⟩⟩
              · intro v2 hv2
                simp at hv2
              · rw [if_pos rfl, Exports.merge_empty, honl] at h
                exact absurd rfl h
          | some b2 =>
              cases b2 with
              | ok w =>
                  have hP : process_load_script_event rt timer s true =
                      ⟨⟨s.exports, KValue.emptyMap, true⟩, timer.reset, true,
                        [Call.compile true, Call.runChunk true, Call.callOnLoad],
                        true⟩ := by
                    simp [process_load_script_event, initialize_script,
                      run_exported_function, Exports.get, Exports.merge_empty, hc, hr,
                      hsetup, honl]
                  rw [hP]
                  refine ⟨fun _ => ⟨rfl, ?_, fun _ => ⟨rfl, by simp⟩, rfl, rfl⟩,
                    fun h => by simp at h,
                    ⟨[Call.callOnLoad], rfl, fun _ => by simp⟩⟩
                  intro v2 hv2
                  simp at hv2
              | err m =>
                  exfalso
                  simp [process_load_script_event, initialize_script,
                    run_exported_function, Exports.get, Exports.merge_empty, hc, hr,
                    hsetup, honl] at hok

/-- Witness for C2: a fresh load of a script exporting a `setup` that returns
the value tagged 3 succeeds, installs that value as the user data, records
the setup call, and resets the timer. -/
theorem C2_load_protocol_witness :
    (process_load_script_event ⟨Exports.empty, KValue.null, false⟩ ⟨5, 5⟩
        ⟨true, true, ⟨some (FnBehavior.ok (KValue.value 3)), none, none, none⟩⟩ true).ok
      = true ∧
    ((process_load_script_event ⟨Exports.empty, KValue.null, false⟩ ⟨5, 5⟩
        ⟨true, true, ⟨some (FnBehavior.ok (KValue.value 3)), none, none, none⟩⟩
        true).rt.user_data = KValue.value 3 ∧
      Call.callSetup ∈
        (process_load_script_event ⟨Exports.empty, KValue.null, false⟩ ⟨5, 5⟩
          ⟨true, true, ⟨some (FnBehavior.ok (KValue.value 3)), none, none, none⟩⟩
          true).trace) :=
  ⟨rfl,
    ((C2_load_protocol ⟨Exports.empty, KValue.null, false⟩ ⟨5, 5⟩
        ⟨true, true, ⟨some (FnBehavior.ok (KValue.value 3)), none, none, none⟩⟩ true
        rfl).1 rfl).2.1 (KValue.value 3) rfl⟩

end BevyKoto
